import Mathlib

/-!
Verification of the risk-constrained order-execution core of an OKX
trading assistant (TypeScript sources in src/services/aiService.ts and
src/unnamed/part_000).

The TypeScript is shallowly embedded: JavaScript numbers are modelled by
rationals, strings that are parsed with parseFloat are modelled by
Option Rat (none = missing / empty / unparseable), and each network call
is modelled by passing its response in as data.  Functions that perform
a sequence of exchange calls return, besides their result, the list of
exchange commands they issued, in order, so that ordering claims can be
stated about the trace.  All functions are total; a thrown JavaScript
exception is modelled as an error constructor of the result type.

Numeric formatting: Number.prototype.toFixed(2) is modelled by round2
(round to the nearest multiple of 1/100, halves away from zero on the
positive range, matching JS for exactly-representable inputs), and
Math.floor(x * 100) / 100 by floor2.
-/

namespace Okx

/-- Model of JavaScript toFixed(2) on a nonnegative number: round to the
nearest multiple of 1/100 (ties upward). -/
def round2 (x : ℚ) : ℚ := ((round (100 * x) : ℤ) : ℚ) / 100

/-- Model of Math.floor(x * 100) / 100. -/
def floor2 (x : ℚ) : ℚ := ((Int.floor (100 * x) : ℤ) : ℚ) / 100

theorem round2_mono {x y : ℚ} (h : x ≤ y) : round2 x ≤ round2 y := by
  unfold round2
  have hf : round (100 * x) ≤ round (100 * y) := by
    rw [round_eq, round_eq]
    exact Int.floor_le_floor (by linarith)
  have hq : ((round (100 * x) : ℤ) : ℚ) ≤ ((round (100 * y) : ℤ) : ℚ) := by
    exact_mod_cast hf
  linarith

theorem round2_int_div (k : ℤ) : round2 ((k : ℚ) / 100) = (k : ℚ) / 100 := by
  unfold round2
  rw [show (100 : ℚ) * ((k : ℚ) / 100) = (k : ℚ) by ring]
  rw [round_intCast]

/-- Decision actions, after the toUpperCase normalisation. -/
inductive Action
  | BUY
  | SELL
  | CLOSE
  | HOLD
  | UPDATE_TPSL
  deriving DecidableEq, Repr

/-- Position side in long/short account mode (posSide field). -/
inductive PosSide
  | long
  | short
  deriving DecidableEq, Repr

/-- Order side (side field of a trade order). -/
inductive Side
  | buy
  | sell
  deriving DecidableEq, Repr

/-- The part of an OKX position snapshot that the decision code reads.
String price fields are modelled as Option Rat: none stands for a
missing or empty field, some q for a field parsing to q
(slTriggerPx and breakEvenPx are absent when unset). -/
structure PositionData where
  posSide : PosSide
  pos : ℚ
  avgPx : ℚ
  upl : ℚ
  margin : ℚ
  slTriggerPx : Option ℚ
  breakEvenPx : Option ℚ
  deriving DecidableEq, Repr

/-- hasPosition test used by every getTradingDecision variant:
a primary position exists and parseFloat(p.pos) > 0. -/
def hasPositionData : Option PositionData → Bool
  | some p => 0 < p.pos
  | none => false

/-!
## Decision normalizer: the stop-loss ratchet guard

Source: src/services/aiService.ts lines 1634-1655 (and the equivalent
guard in src/unnamed/part_000 lines 404-425): when the action is
UPDATE_TPSL and a position is held, parse newSL from the proposed
stop_loss and currentSL from slTriggerPx (default 0); only when newSL
is a number, newSL > 0 and currentSL > 0, compare by side — long with
newSL < currentSL, or short with newSL > currentSL, downgrades the
action to HOLD and appends the interception note to the reasoning.

The returned Bool records whether the downgrade fired, i.e. whether the
human-readable interception note was appended to decision.reasoning.
The guard never throws; it only rewrites the action field.
-/

/-- Ratchet guard of getTradingDecision.  newSL is the parse of the
proposed trading_decision.stop_loss (none = missing or non-numeric). -/
def ratchetNormalize (action : Action) (position : Option PositionData)
    (newSL : Option ℚ) : Action × Bool :=
  if action = Action.UPDATE_TPSL ∧ hasPositionData position then
    match position with
    | some p =>
      let currentSL := p.slTriggerPx.getD 0
      match newSL with
      | some sl =>
        if 0 < sl ∧ 0 < currentSL then
          match p.posSide with
          | PosSide.long =>
            if sl < currentSL then (Action.HOLD, true) else (action, false)
          | PosSide.short =>
            if currentSL < sl then (Action.HOLD, true) else (action, false)
        else (action, false)
      | none => (action, false)
    | none => (action, false)
  else (action, false)

/-- Claim C2 as stated is false: a proposed stop-loss that parses to a
non-positive number (here -1) is strictly below the current stop-loss
of a long position (3000 > 0), yet the guard does not downgrade the
action to HOLD — the positivity test newSL > 0 skips the ratchet check
and the decision keeps action UPDATE_TPSL with no reason appended. -/
theorem C2_counterexample :
    ratchetNormalize Action.UPDATE_TPSL
      (some { posSide := PosSide.long, pos := 1, avgPx := 3000, upl := 0,
              margin := 10, slTriggerPx := some 3000, breakEvenPx := none })
      (some (-1)) = (Action.UPDATE_TPSL, false) ∧
    (-1 : ℚ) < 3000 ∧ Action.UPDATE_TPSL ≠ Action.HOLD := by
  refine ⟨?_, by norm_num, by simp⟩
  rfl

/-- Claim C2, amended: for UPDATE_TPSL on an existing position whose
current stop-loss is > 0, and a proposed stop-loss that parses to a
positive number, a long proposal strictly below (resp. short proposal
strictly above) the current stop-loss downgrades the action to HOLD
with the interception reason appended; otherwise the action is kept.
When no current stop-loss is set (parses to 0), any positive proposal
is accepted without downgrade.  The guard is a total function, so no
exception is thrown.  (Non-positive or non-numeric proposals skip the
check entirely and leave the action unchanged.) -/
theorem C2_ratchet_guard (p : PositionData) (sl : ℚ)
    (hpos : 0 < p.pos) (hsl : 0 < sl) :
    (0 < p.slTriggerPx.getD 0 → p.posSide = PosSide.long →
      sl < p.slTriggerPx.getD 0 →
      ratchetNormalize Action.UPDATE_TPSL (some p) (some sl)
        = (Action.HOLD, true)) ∧
    (0 < p.slTriggerPx.getD 0 → p.posSide = PosSide.short →
      p.slTriggerPx.getD 0 < sl →
      ratchetNormalize Action.UPDATE_TPSL (some p) (some sl)
        = (Action.HOLD, true)) ∧
    (0 < p.slTriggerPx.getD 0 → p.posSide = PosSide.long →
      p.slTriggerPx.getD 0 ≤ sl →
      ratchetNormalize Action.UPDATE_TPSL (some p) (some sl)
        = (Action.UPDATE_TPSL, false)) ∧
    (0 < p.slTriggerPx.getD 0 → p.posSide = PosSide.short →
      sl ≤ p.slTriggerPx.getD 0 →
      ratchetNormalize Action.UPDATE_TPSL (some p) (some sl)
        = (Action.UPDATE_TPSL, false)) ∧
    (p.slTriggerPx.getD 0 = 0 →
      ratchetNormalize Action.UPDATE_TPSL (some p) (some sl)
        = (Action.UPDATE_TPSL, false)) := by
  unfold ratchetNormalize hasPositionData
  refine ⟨?_, ?_, ?_, ?_, ?_⟩
  · intro hcur hside hlt
    simp [hpos, hside, hsl, hcur, hlt]
  · intro hcur hside hlt
    simp [hpos, hside, hsl, hcur, hlt, not_lt.mpr (le_of_lt hlt)]
  · intro hcur hside hge
    simp [hpos, hside, hsl, hcur, not_lt.mpr hge]
  · intro hcur hside hge
    simp [hpos, hside, hsl, hcur, not_lt.mpr hge]
  · intro hcur
    simp [hpos, hsl, hcur]

/-- Concrete instantiation of the amended C2 theorem: a long position
with current stop-loss 3000 and proposal 2900 is downgraded to HOLD. -/
theorem C2_witness :
    ratchetNormalize Action.UPDATE_TPSL
      (some { posSide := PosSide.long, pos := 1, avgPx := 3000, upl := 0,
              margin := 10, slTriggerPx := some 3000, breakEvenPx := none })
      (some 2900) = (Action.HOLD, true) :=
  (C2_ratchet_guard
    { posSide := PosSide.long, pos := 1, avgPx := 3000, upl := 0,
      margin := 10, slTriggerPx := some 3000, breakEvenPx := none }
    2900 (by norm_num) (by norm_num)).1 (by norm_num) rfl (by norm_num)

/-!
## Position sizer, main variant

Source: src/services/aiService.ts lines 1657-1733 (getTradingDecision,
post-processing of BUY/SELL actions).
-/

/-- Modelled from the spec: CONTRACT_VAL_ETH is imported from
src/constants.ts, which is not among the provided sources.  The spec
(§8) fixes the contract unit value at 0.1 in its sizing examples. -/
def CONTRACT_VAL_ETH : ℚ := 1/10

/-- safeLeverage = isNaN(parseFloat(leverage)) ? stage leverage : parsed. -/
def mainSafeLeverage (decLeverage : Option ℚ) (stageLeverage : ℚ) : ℚ :=
  decLeverage.getD stageLeverage

/-- priceForCalc = currentPrice > 0 ? currentPrice : 1 (line 1676). -/
def mainPriceForCalc (currentPrice : ℚ) : ℚ :=
  if 0 < currentPrice then currentPrice else 1

/-- algoContracts (lines 1679-1690): availableEquity × (baseRiskRatio ×
sharpeModifier) × leverage / (CONTRACT_VAL_ETH × priceForCalc), where
baseRiskRatio is 0.15 when adding and 0.30 when opening, and the
sharpe modifier halves the size when the sharpe value is negative. -/
def mainAlgoContracts (availableEquity : ℚ) (hasPosition : Bool)
    (sharpe lev price : ℚ) : ℚ :=
  availableEquity *
      ((if hasPosition then (3/20 : ℚ) else 3/10) *
        (if sharpe < 0 then (1/2 : ℚ) else 1)) * lev /
    (CONTRACT_VAL_ETH * mainPriceForCalc price)

/-- maxContractsCap (lines 1710-1713) with capRatio = 0.30. -/
def mainHardCap (availableEquity lev price : ℚ) : ℚ :=
  availableEquity * (3/10) * lev / (CONTRACT_VAL_ETH * mainPriceForCalc price)

/-- Candidate size (lines 1693-1706): the AI-proposed position_size when
it parses to a positive number (aiContracts stays 0 for a missing,
empty, "0" or non-numeric field), otherwise algoContracts. -/
def mainCandidate (availableEquity : ℚ) (hasPosition : Bool)
    (sharpe lev price : ℚ) (aiSize : Option ℚ) : ℚ :=
  if 0 < aiSize.getD 0 then aiSize.getD 0
  else mainAlgoContracts availableEquity hasPosition sharpe lev price

/-- finalContracts after the cap clamp (lines 1715-1719). -/
def mainFinalContracts (availableEquity : ℚ) (hasPosition : Bool)
    (sharpe lev price : ℚ) (aiSize : Option ℚ) : ℚ :=
  if mainHardCap availableEquity lev price <
      mainCandidate availableEquity hasPosition sharpe lev price aiSize then
    mainHardCap availableEquity lev price
  else mainCandidate availableEquity hasPosition sharpe lev price aiSize

/-- Full sizing post-processing of the main getTradingDecision
(lines 1662-1733): for BUY/SELL the submitted size is
Math.max(finalContracts, 0.01).toFixed(2), and if the result is still
below 0.01 the action is forced to HOLD with size 0; other actions get
size 0. -/
def mainDecisionSizing (action : Action) (aiSize decLeverage : Option ℚ)
    (stageLeverage availableEquity price : ℚ) (hasPosition : Bool)
    (sharpe : ℚ) : Action × ℚ :=
  if action = Action.BUY ∨ action = Action.SELL then
    let size := round2 (max (mainFinalContracts availableEquity hasPosition
      sharpe (mainSafeLeverage decLeverage stageLeverage) price aiSize) (1/100))
    if size < 1/100 then (Action.HOLD, 0) else (action, size)
  else (action, 0)

/-!
## Position sizer, part_000 variant

Source: src/unnamed/part_000 lines 427-480 (getTradingDecision,
post-processing of BUY/SELL actions).
-/

/-- confidence = parseFloat(confidence) || 50 (line 429): NaN and 0 both
fall back to 50. -/
def part0Confidence (conf : Option ℚ) : ℚ :=
  match conf with
  | some c => if c = 0 then 50 else c
  | none => 50

/-- positionValue (lines 436-451): margin = availableEquity × riskFactor ×
confidence/100 capped at 95% of availableEquity, times leverage; the
small-account auto-fix lifts it to MIN_OPEN_VALUE = 100 when opening
with enough equity and confidence ≥ 40. -/
def part0PositionValue (availableEquity stageRisk lev confidence : ℚ)
    (isAdding : Bool) : ℚ :=
  let riskFactor := if isAdding then (1/5 : ℚ) else stageRisk
  let targetMargin := availableEquity * riskFactor * (confidence / 100)
  let finalMargin := min targetMargin (availableEquity * (19/20))
  let pv := finalMargin * lev
  if isAdding = false ∧ pv < 100 ∧ 100 < availableEquity * (9/10) * lev ∧
      40 ≤ confidence then 100
  else pv

/-- numContracts (lines 459-466): the floored algorithmic size, except
that a positive AI-proposed position_size REPLACES it verbatim whenever
a position is being added to — with no cap of any kind. -/
def part0NumContracts (availableEquity stageRisk lev confidence
    currentPrice : ℚ) (isAdding : Bool) (aiSize : Option ℚ) : ℚ :=
  if isAdding = true ∧ 0 < aiSize.getD 0 then aiSize.getD 0
  else floor2 (part0PositionValue availableEquity stageRisk lev confidence
    isAdding / (CONTRACT_VAL_ETH * currentPrice))

/-- Full sizing post-processing of the part_000 getTradingDecision
(lines 427-480).  The second component models decision.size: none means
the field is left untouched (the sub-minimum branch with an existing
position assigns neither action nor size). -/
def part0Sizing (action : Action) (aiSize conf decLeverage : Option ℚ)
    (stageLeverage stageRisk availableEquity currentPrice : ℚ)
    (hasPosition : Bool) : Action × Option ℚ :=
  if action = Action.BUY ∨ action = Action.SELL then
    let numContracts := part0NumContracts availableEquity stageRisk
      (decLeverage.getD stageLeverage) (part0Confidence conf) currentPrice
      hasPosition aiSize
    if numContracts < 1/100 then
      if hasPosition = false then (Action.HOLD, some 0) else (action, none)
    else (action, some (round2 numContracts))
  else (action, some 0)

/-- Claim C1 as stated is false in the part_000 variant: with a position
held (adding), availableEquity = 100, leverage 20, price 3000, an
AI-proposed position_size of 1000000 contracts is submitted verbatim,
far above the hard cap (availableEquity × 0.30 × leverage) /
(contractUnitValue × price) = 2 contracts. -/
theorem C1_counterexample :
    part0Sizing Action.BUY (some 1000000) (some 80) (some 20) 20 (3/10)
        100 3000 true = (Action.BUY, some 1000000) ∧
    mainHardCap 100 20 3000 = 2 ∧ (2 : ℚ) < 1000000 := by
  refine ⟨?_, ?_, by norm_num⟩
  · have hnc : part0NumContracts 100 (3/10) 20
        (part0Confidence (some 80)) 3000 true (some 1000000) = 1000000 := by
      unfold part0NumContracts
      norm_num
    have h1e6 : round2 (1000000 : ℚ) = 1000000 := by
      have := round2_int_div 100000000
      norm_num at this
      exact this
    norm_num [part0Sizing, hnc, h1e6]
  · unfold mainHardCap mainPriceForCalc CONTRACT_VAL_ETH
    norm_num

/-- Claim C1, amended.  In the main (aiService.ts) variant the cap does
hold up to formatting: (1) the clamped candidate finalContracts never
exceeds the hard cap, whatever the proposal (missing, zero, negative or
huge); (2) the submitted size never exceeds round2(max(hardCap, 0.01))
— the clamp is followed by a bump to the 0.01 minimum and two-decimal
formatting; (3) hence whenever the hard cap is at least 0.01 and
expressible in the two-decimal size format, the submitted size never
exceeds the hard cap.  (4) In the part_000 variant, by contrast, any
AI-proposed size ≥ 0.01 is submitted verbatim when adding to an
existing position: no cap is applied at all. -/
theorem C1_sizing_cap (availableEquity price stageLeverage sharpe : ℚ)
    (aiSize conf decLeverage : Option ℚ) (hasPosition : Bool)
    (action : Action) (stageRisk : ℚ) :
    mainFinalContracts availableEquity hasPosition sharpe
        (mainSafeLeverage decLeverage stageLeverage) price aiSize ≤
      mainHardCap availableEquity
        (mainSafeLeverage decLeverage stageLeverage) price ∧
    (mainDecisionSizing action aiSize decLeverage stageLeverage
        availableEquity price hasPosition sharpe).2 ≤
      round2 (max (mainHardCap availableEquity
        (mainSafeLeverage decLeverage stageLeverage) price) (1/100)) ∧
    (1/100 ≤ mainHardCap availableEquity
        (mainSafeLeverage decLeverage stageLeverage) price →
      (∃ k : ℤ, mainHardCap availableEquity
        (mainSafeLeverage decLeverage stageLeverage) price = (k : ℚ) / 100) →
      (mainDecisionSizing action aiSize decLeverage stageLeverage
        availableEquity price hasPosition sharpe).2 ≤
      mainHardCap availableEquity
        (mainSafeLeverage decLeverage stageLeverage) price) ∧
    (∀ s : ℚ, 1/100 ≤ s →
      part0Sizing Action.BUY (some s) conf decLeverage stageLeverage
        stageRisk availableEquity price true = (Action.BUY, some (round2 s))) := by
  have h1 : mainFinalContracts availableEquity hasPosition sharpe
      (mainSafeLeverage decLeverage stageLeverage) price aiSize ≤
      mainHardCap availableEquity
        (mainSafeLeverage decLeverage stageLeverage) price := by
    unfold mainFinalContracts
    split
    · exact le_refl _
    · exact le_of_not_lt (by assumption)
  have hmin : (0 : ℚ) ≤ round2 (max (mainHardCap availableEquity
      (mainSafeLeverage decLeverage stageLeverage) price) (1/100)) := by
    have : round2 (1/100 : ℚ) ≤ round2 (max (mainHardCap availableEquity
        (mainSafeLeverage decLeverage stageLeverage) price) (1/100)) :=
      round2_mono (le_max_right _ _)
    have h100 : round2 ((1 : ℚ)/100) = 1/100 := by
      have := round2_int_div 1
      simpa using this
    linarith
  have h2 : (mainDecisionSizing action aiSize decLeverage stageLeverage
      availableEquity price hasPosition sharpe).2 ≤
      round2 (max (mainHardCap availableEquity
        (mainSafeLeverage decLeverage stageLeverage) price) (1/100)) := by
    unfold mainDecisionSizing
    split
    · dsimp only
      split
      · simpa using hmin
      · exact round2_mono (max_le_max h1 (le_refl _))
    · simpa using hmin
  refine ⟨h1, h2, ?_, ?_⟩
  · rintro hcap ⟨k, hk⟩
    have hmax : max (mainHardCap availableEquity
        (mainSafeLeverage decLeverage stageLeverage) price) (1/100 : ℚ) =
        mainHardCap availableEquity
          (mainSafeLeverage decLeverage stageLeverage) price :=
      max_eq_left hcap
    calc (mainDecisionSizing action aiSize decLeverage stageLeverage
        availableEquity price hasPosition sharpe).2 ≤
          round2 (max (mainHardCap availableEquity
            (mainSafeLeverage decLeverage stageLeverage) price) (1/100)) := h2
      _ = round2 (mainHardCap availableEquity
            (mainSafeLeverage decLeverage stageLeverage) price) := by rw [hmax]
      _ = mainHardCap availableEquity
            (mainSafeLeverage decLeverage stageLeverage) price := by
            rw [hk]; exact round2_int_div k
  · intro s hs
    have hpos : (0 : ℚ) < s := lt_of_lt_of_le (by norm_num) hs
    have hlt : ¬ s < 1/100 := not_lt.mpr hs
    simp [part0Sizing, part0NumContracts, hpos, hlt]
    linarith

/-- Concrete instantiation of the amended C1 theorem, matching the
example given by the spec: availableEquity = 100, leverage 10, price 3000
gives a hard cap of exactly 1.00 contract, and a proposed size of 50
contracts is submitted as at most the cap. -/
theorem C1_witness :
    (1/100 : ℚ) ≤ mainHardCap 100 (mainSafeLeverage (some 10) 10) 3000 ∧
    (mainDecisionSizing Action.BUY (some 50) (some 10) 10 100 3000 false 0).2 ≤
      mainHardCap 100 (mainSafeLeverage (some 10) 10) 3000 := by
  have hcap : mainHardCap 100 (mainSafeLeverage (some 10) 10) 3000 = 1 := by
    unfold mainHardCap mainSafeLeverage mainPriceForCalc CONTRACT_VAL_ETH
    norm_num
  refine ⟨by rw [hcap]; norm_num, ?_⟩
  exact (C1_sizing_cap 100 3000 10 0 (some 50) none (some 10) false
    Action.BUY (3/10)).2.2.1 (by rw [hcap]; norm_num)
    ⟨100, by rw [hcap]; norm_num⟩

/-!
## Scalping variant: forced break-even protection and sizing

Source: src/services/aiService.ts lines 2007-2062 (forced break-even
construction), 2143-2155 (logic fusion with the model decision) and
2157-2191 (sizing post-processing).
-/

/-- Confidence factor (line 2161): parseFloat(confidence)/100 || 0.5 —
a missing, non-numeric or zero confidence falls back to 0.5. -/
def scalpConfFactor (conf : Option ℚ) : ℚ :=
  match conf with
  | some c => if c = 0 then 1/2 else c / 100
  | none => 1/2

/-- positionValue (lines 2161-2172): margin capped at 95% of available
equity, lifted to MIN_MARGIN = 0.5 on an initial open when
availableEquity > 0.5 × 1.05. -/
def scalpPositionValue (availableEquity stageRisk lev : ℚ)
    (conf : Option ℚ) (hasPosition : Bool) : ℚ :=
  let targetMargin := availableEquity * stageRisk * scalpConfFactor conf
  let finalMargin := min targetMargin (availableEquity * (19/20))
  if hasPosition = false ∧ finalMargin < 1/2 ∧ 21/40 < availableEquity then
    (1/2 : ℚ) * lev
  else finalMargin * lev

/-- calcSize (line 2177). -/
def scalpCalcSize (availableEquity stageRisk lev currentPrice : ℚ)
    (conf : Option ℚ) (hasPosition : Bool) : ℚ :=
  scalpPositionValue availableEquity stageRisk lev conf hasPosition /
    (CONTRACT_VAL_ETH * currentPrice)

/-- numContracts (lines 2176-2179): the AI raw size is used only when
positive AND strictly smaller than the computed size; the result is
floored to the 0.01 increment. -/
def scalpNumContracts (availableEquity stageRisk lev currentPrice : ℚ)
    (conf aiSize : Option ℚ) (hasPosition : Bool) : ℚ :=
  let calcSize := scalpCalcSize availableEquity stageRisk lev currentPrice
    conf hasPosition
  let rawSize := aiSize.getD 0
  floor2 (if 0 < rawSize ∧ rawSize < calcSize then rawSize else calcSize)

/-- Sizing post-processing of the scalping getTradingDecision
(lines 2175-2191): sub-increment sizes force HOLD with size 0,
unconditionally; non-BUY/SELL actions get size 0. -/
def scalpSizing (action : Action) (aiSize conf decLeverage : Option ℚ)
    (stageLeverage stageRisk availableEquity currentPrice : ℚ)
    (hasPosition : Bool) : Action × ℚ :=
  if action = Action.BUY ∨ action = Action.SELL then
    let numContracts := scalpNumContracts availableEquity stageRisk
      (decLeverage.getD stageLeverage) currentPrice conf aiSize hasPosition
    if numContracts < 1/100 then (Action.HOLD, 0)
    else (action, round2 numContracts)
  else (action, 0)

/-- Break-even price (lines 2015-2018): parseFloat(p.breakEvenPx) when
the field is present and nonzero — even when negative — otherwise
entry × 1.0015 (long) or entry × 0.9985 (short). -/
def scalpBreakEven (p : PositionData) : ℚ :=
  let be := p.breakEvenPx.getD 0
  if be = 0 then
    if p.posSide = PosSide.long then p.avgPx * (10015/10000)
    else p.avgPx * (9985/10000)
  else be

/-- currentROI (lines 2021-2023). -/
def scalpROI (p : PositionData) (currentPrice : ℚ) : ℚ :=
  if p.posSide = PosSide.long then (currentPrice - p.avgPx) / p.avgPx
  else (p.avgPx - currentPrice) / p.avgPx

/-- needsForcedUpdate (lines 2026-2038): floating return above the 0.6%
trigger and a stop-loss less protective than the break-even the code computed
(long: currentSL < breakEven; short: currentSL unset or above it). -/
def scalpNeedsForced (p : PositionData) (currentPrice : ℚ) : Bool :=
  if (3/500 : ℚ) < scalpROI p currentPrice then
    match p.posSide with
    | PosSide.long =>
        if p.slTriggerPx.getD 0 < scalpBreakEven p then true else false
    | PosSide.short =>
        if p.slTriggerPx.getD 0 = 0 ∨ scalpBreakEven p < p.slTriggerPx.getD 0
        then true else false
  else false

/-- Decision fields after the fusion step, before sizing. -/
structure FusedDecision where
  action : Action
  positionSize : Option ℚ
  confidence : Option ℚ
  leverage : Option ℚ
  stopLoss : Option ℚ
  deriving DecidableEq, Repr

/-- Logic fusion (lines 2040-2062 and 2146-2155): when the forced
break-even fires and the model did not say CLOSE, the whole decision is
replaced by the system-constructed UPDATE_TPSL decision whose stop-loss
is the break-even price formatted with toFixed(2). -/
def scalpFused (aiAction : Action)
    (aiSize aiConf aiLeverage aiStopLoss : Option ℚ)
    (position : Option PositionData) (currentPrice stageLeverage : ℚ) :
    FusedDecision :=
  match position with
  | some p =>
    if 0 < p.pos ∧ scalpNeedsForced p currentPrice = true ∧
        aiAction ≠ Action.CLOSE then
      { action := Action.UPDATE_TPSL, positionSize := some 0,
        confidence := some 100, leverage := some stageLeverage,
        stopLoss := some (round2 (scalpBreakEven p)) }
    else
      { action := aiAction, positionSize := aiSize, confidence := aiConf,
        leverage := aiLeverage, stopLoss := aiStopLoss }
  | none =>
      { action := aiAction, positionSize := aiSize, confidence := aiConf,
        leverage := aiLeverage, stopLoss := aiStopLoss }

/-- Final decision of the scalping getTradingDecision. -/
structure ScalpDecision where
  action : Action
  size : ℚ
  stopLoss : Option ℚ
  leverage : ℚ
  deriving DecidableEq, Repr

/-- Post-parse processing of the scalping getTradingDecision
(lines 2143-2193): fusion followed by leverage fallback and sizing. -/
def scalpGetTradingDecision (aiAction : Action)
    (aiSize aiConf aiLeverage aiStopLoss : Option ℚ)
    (position : Option PositionData)
    (currentPrice availableEquity stageLeverage stageRisk : ℚ) :
    ScalpDecision :=
  let fused := scalpFused aiAction aiSize aiConf aiLeverage aiStopLoss
    position currentPrice stageLeverage
  let sized := scalpSizing fused.action fused.positionSize fused.confidence
    fused.leverage stageLeverage stageRisk availableEquity currentPrice
    (hasPositionData position)
  { action := sized.1, size := sized.2, stopLoss := fused.stopLoss,
    leverage := fused.leverage.getD stageLeverage }

/-- Claim C7 as stated is false in the part_000 variant: with a position
held (availableEquity = 1, price 3000, adding at 15%-of-margin sizing),
the computed size is 0 contracts, below the 0.01 minimum increment —
yet the action is NOT forced to HOLD: it stays BUY and the size field
is left unassigned (the sub-minimum branch only fires when no position
exists). -/
theorem C7_counterexample :
    part0Sizing Action.BUY none (some 50) (some 20) 20 (3/10) 1 3000 true
      = (Action.BUY, none) ∧
    part0NumContracts 1 (3/10) 20 (part0Confidence (some 50)) 3000 true none
      < 1/100 ∧
    (Action.BUY, (none : Option ℚ)) ≠ (Action.HOLD, some 0) := by
  have hnc : part0NumContracts 1 (3/10) 20 (part0Confidence (some 50)) 3000
      true none = 0 := by
    unfold part0NumContracts part0PositionValue part0Confidence
      CONTRACT_VAL_ETH floor2
    norm_num
  refine ⟨?_, by rw [hnc]; norm_num, by simp⟩
  have hnc20 : part0NumContracts 1 (3/10) ((some (20:ℚ)).getD 20)
      (part0Confidence (some 50)) 3000 true none = 0 := by
    simpa using hnc
  norm_num [part0Sizing, hnc20, hnc]

/-- Claim C7, amended: in the scalping variant a final sized quantity
below the 0.01 increment forces the action to HOLD with size 0,
regardless of the original BUY/SELL action and of whether a position
exists; in the part_000 variant the same clamp applies only when no
position exists — when adding to an existing position the action and
the size field are left unchanged. -/
theorem C7_min_increment (action : Action) (aiSize conf decLeverage : Option ℚ)
    (stageLeverage stageRisk availableEquity currentPrice : ℚ)
    (hasPosition : Bool) (ha : action = Action.BUY ∨ action = Action.SELL) :
    (scalpNumContracts availableEquity stageRisk
        (decLeverage.getD stageLeverage) currentPrice conf aiSize hasPosition
        < 1/100 →
      scalpSizing action aiSize conf decLeverage stageLeverage stageRisk
        availableEquity currentPrice hasPosition = (Action.HOLD, 0)) ∧
    (part0NumContracts availableEquity stageRisk
        (decLeverage.getD stageLeverage) (part0Confidence conf) currentPrice
        hasPosition aiSize < 1/100 →
      hasPosition = false →
      part0Sizing action aiSize conf decLeverage stageLeverage stageRisk
        availableEquity currentPrice hasPosition = (Action.HOLD, some 0)) := by
  constructor
  · intro h
    rcases ha with h1 | h1 <;> subst h1 <;> simp [scalpSizing] <;> linarith
  · intro h hfalse
    subst hfalse
    rcases ha with h1 | h1 <;> subst h1 <;> simp [part0Sizing] <;> linarith

/-- Concrete instantiation of the amended C7 theorem: opening with zero
available equity sizes to 0 contracts and is clamped to HOLD/0 in the
scalping variant. -/
theorem C7_witness :
    scalpNumContracts 0 (3/10) ((some (20:ℚ)).getD 20) 3000 none none false
      < 1/100 ∧
    scalpSizing Action.BUY none none (some 20) 20 (3/10) 0 3000 false
      = (Action.HOLD, 0) := by
  have h : scalpNumContracts 0 (3/10) ((some (20:ℚ)).getD 20) 3000 none none
      false < 1/100 := by
    unfold scalpNumContracts scalpCalcSize scalpPositionValue scalpConfFactor
      CONTRACT_VAL_ETH floor2
    norm_num
  exact ⟨h, (C7_min_increment Action.BUY none none (some 20) 20 (3/10) 0 3000
    false (Or.inl rfl)).1 h⟩

/-- Position used by the C10 counterexample: a long position whose
exchange-reported breakEvenPx parses to a negative number. -/
def cexPos10 : PositionData :=
  { posSide := PosSide.long, pos := 1, avgPx := 3000, upl := 100,
    margin := 10, slTriggerPx := none, breakEvenPx := some (-1) }

/-- Breakeven exactly as claim C10 words it (stated from the claim for
comparison with scalpBreakEven from the source): the exchange-reported
breakEvenPx when positive, otherwise entry × 1.0015 for long or
entry × 0.9985 for short. -/
def claimBreakEven (p : PositionData) : ℚ :=
  if 0 < p.breakEvenPx.getD 0 then p.breakEvenPx.getD 0
  else if p.posSide = PosSide.long then p.avgPx * (10015/10000)
  else p.avgPx * (9985/10000)

/-- Claim C10 as stated is false: with a held long position whose
breakEvenPx field parses to -1, floating return 3.33% > 0.6% and no
stop-loss set, the breakeven demanded by the claim (entry × 1.0015, since the
reported value is not positive) strictly exceeds the unset stop-loss,
so the claim demands a forced UPDATE_TPSL — but the code uses the
reported -1 verbatim (its fallback fires only on a zero/absent field),
finds 0 < -1 false, and returns the HOLD decision of the model unchanged. -/
theorem C10_counterexample :
    (3/500 : ℚ) < scalpROI cexPos10 3100 ∧
    cexPos10.slTriggerPx.getD 0 < claimBreakEven cexPos10 ∧
    (scalpGetTradingDecision Action.HOLD none none none none (some cexPos10)
        3100 100 20 (3/10)).action = Action.HOLD ∧
    Action.HOLD ≠ Action.UPDATE_TPSL := by
  have hroi : (3/500 : ℚ) < scalpROI cexPos10 3100 := by
    unfold scalpROI cexPos10
    norm_num
  have hforce : scalpNeedsForced cexPos10 3100 = false := by
    unfold scalpNeedsForced scalpBreakEven cexPos10
    norm_num
  refine ⟨hroi, ?_, ?_, by simp⟩
  · unfold claimBreakEven cexPos10
    norm_num
  · have hfused : scalpFused Action.HOLD none none none none (some cexPos10)
        3100 20 =
        { action := Action.HOLD, positionSize := none, confidence := none,
          leverage := none, stopLoss := none } := by
      simp only [scalpFused]
      rw [if_neg (by simp [hforce])]
    unfold scalpGetTradingDecision
    rw [hfused]
    simp [scalpSizing]

/-- Claim C10, amended: for every held position whose floating return
exceeds 0.6% and whose stop-loss is less protective than the
break-even the code computed price — the exchange-reported breakEvenPx when it parses to
a NONZERO value (used verbatim even if negative), otherwise
entry × 1.0015 (long) / entry × 0.9985 (short) — the scalping
getTradingDecision discards the decision of the model unless its action is
CLOSE, returning the system decision with action UPDATE_TPSL, size 0,
stop-loss equal to that break-even price formatted to two decimals;
with a model CLOSE the original decision survives fusion. -/
theorem C10_forced_breakeven (p : PositionData) (aiAction : Action)
    (aiSize aiConf aiLeverage aiStopLoss : Option ℚ)
    (currentPrice availableEquity stageLeverage stageRisk : ℚ)
    (hpos : 0 < p.pos) (hforce : scalpNeedsForced p currentPrice = true)
    (hclose : aiAction ≠ Action.CLOSE) :
    scalpGetTradingDecision aiAction aiSize aiConf aiLeverage aiStopLoss
        (some p) currentPrice availableEquity stageLeverage stageRisk =
      { action := Action.UPDATE_TPSL, size := 0,
        stopLoss := some (round2 (scalpBreakEven p)),
        leverage := stageLeverage } ∧
    (scalpGetTradingDecision Action.CLOSE aiSize aiConf aiLeverage aiStopLoss
        (some p) currentPrice availableEquity stageLeverage stageRisk).action
      = Action.CLOSE := by
  constructor
  · have hfused : scalpFused aiAction aiSize aiConf aiLeverage aiStopLoss
        (some p) currentPrice stageLeverage =
        { action := Action.UPDATE_TPSL, positionSize := some 0,
          confidence := some 100, leverage := some stageLeverage,
          stopLoss := some (round2 (scalpBreakEven p)) } := by
      simp only [scalpFused]
      rw [if_pos ⟨hpos, hforce, hclose⟩]
    unfold scalpGetTradingDecision
    rw [hfused]
    simp [scalpSizing]
  · have hfused : scalpFused Action.CLOSE aiSize aiConf aiLeverage aiStopLoss
        (some p) currentPrice stageLeverage =
        { action := Action.CLOSE, positionSize := aiSize, confidence := aiConf,
          leverage := aiLeverage, stopLoss := aiStopLoss } := by
      simp only [scalpFused]
      rw [if_neg (by simp)]
    unfold scalpGetTradingDecision
    rw [hfused]
    simp [scalpSizing]

/-- Position used by the C10 witness: positive reported breakeven. -/
def wPos10 : PositionData :=
  { posSide := PosSide.long, pos := 1, avgPx := 3000, upl := 100,
    margin := 10, slTriggerPx := none, breakEvenPx := some 3010 }

/-- Concrete instantiation of the amended C10 theorem: long at 3000,
price 3100 (ROI 3.33%), reported breakeven 3010, no stop-loss set: the
returned decision is the forced UPDATE_TPSL at the breakeven. -/
theorem C10_witness :
    scalpGetTradingDecision Action.HOLD none none none none (some wPos10)
        3100 100 20 (3/10) =
      { action := Action.UPDATE_TPSL, size := 0,
        stopLoss := some (round2 (scalpBreakEven wPos10)), leverage := 20 } :=
  (C10_forced_breakeven wPos10 Action.HOLD none none none none 3100 100 20
    (3/10) (by norm_num [wPos10])
    (by unfold scalpNeedsForced scalpROI scalpBreakEven wPos10; norm_num)
    (by simp)).1

/-!
## Order executor

Source: src/services/aiService.ts lines 721-929 (executeOrder with its
inner placeOrderWithRetry).  The model fixes isSimulation = false and
feeds every exchange response in as data; each function also returns
the trace of exchange commands it issued, in order.
-/

/-- JSON response of an exchange endpoint (top-level code and msg). -/
structure ApiResp where
  code : String
  msg : String
  deriving DecidableEq, Repr

/-- JSON response of the trade/order endpoint: top-level code and msg
plus the optional data[0].sCode rejection detail. -/
structure OrderApiResp where
  code : String
  msg : String
  sCode : Option String
  deriving DecidableEq, Repr

/-- actualCode extraction (lines 881-885): OKX V5 wraps the real
rejection code of a failed operation (top-level code 1) in
data[0].sCode. -/
def actualCode (r : OrderApiResp) : String :=
  if r.code = "1" then
    match r.sCode with
    | some s => s
    | none => r.code
  else r.code

/-- Result of placeOrderWithRetry: accepted, the dedicated
margin-insufficient error (code 51008), or any other rejection
propagated with the code and message of the exchange. -/
inductive PlaceResult
  | ok
  | marginError
  | rejected (code msg : String)
  deriving DecidableEq, Repr

/-- Terminal step of placeOrderWithRetry (lines 901-920): a non-zero
code throws — with the dedicated margin message when the extracted code
is 51008 — and code 0 returns the response. -/
def placeOrderTerminal (json : OrderApiResp) : PlaceResult :=
  if json.code ≠ "0" then
    if actualCode json = "51008" then PlaceResult.marginError
    else PlaceResult.rejected json.code json.msg
  else PlaceResult.ok

/-- placeOrderWithRetry (lines 849-923).  resp k is the exchange
response to the k-th submission; the returned list is the sequence of
submitted sizes.  Only a 51008 (margin insufficient) with retry budget
left resubmits, at 80% of the size formatted with toFixed(2), unless
the reduced size falls below the 0.01 minimum; any other rejection goes
straight to the terminal step. -/
def placeOrderWithRetry (resp : ℕ → OrderApiResp) :
    ℕ → ℚ → ℕ → PlaceResult × List ℚ
  | k, currentSz, 0 => (placeOrderTerminal (resp k), [currentSz])
  | k, currentSz, (r+1) =>
    if actualCode (resp k) = "51008" then
      if 1/100 ≤ round2 (currentSz * (4/5)) then
        ((placeOrderWithRetry resp (k+1) (round2 (currentSz * (4/5))) r).1,
          currentSz ::
            (placeOrderWithRetry resp (k+1) (round2 (currentSz * (4/5))) r).2)
      else (placeOrderTerminal (resp k), [currentSz])
    else (placeOrderTerminal (resp k), [currentSz])

/-- The response executeOrder reacts to with a shrink-retry. -/
def marginReject : OrderApiResp :=
  { code := "51008", msg := "Insufficient balance", sCode := none }

theorem placeOrderWithRetry_length (resp : ℕ → OrderApiResp) :
    ∀ (retries k : ℕ) (sz : ℚ),
      (placeOrderWithRetry resp k sz retries).2.length ≤ retries + 1 := by
  intro retries
  induction retries with
  | zero => intro k sz; simp [placeOrderWithRetry]
  | succ r ih =>
    intro k sz
    unfold placeOrderWithRetry
    split
    · split
      · simpa using ih (k+1) (round2 (sz * (4/5)))
      · simp
    · simp

/-- Claim C4: the margin-insufficient shrink-retry loop.
(1) Starting from size 1.00 under persistent 51008 rejections, the
submitted sizes are exactly 1.00, 0.80, 0.64, and the cycle terminates
with the margin-insufficient error once the budget of 2 retries is
exhausted.  (2) A first response whose extracted code is not 51008
never triggers a resubmission: exactly one size is submitted, and a
non-zero code propagates immediately as that rejection.  (3) The number
of submissions never exceeds retries + 1 (= 3 at the call-site budget
of 2).  (4) A 51008 whose 20%-reduced size would fall below the 0.01
minimum aborts with the terminal margin error instead of retrying.
(5) A 51008 with zero budget left terminates with the margin error.
(6) A 51008 with budget left and a reduced size still ≥ 0.01
resubmits exactly round2(size × 0.8). -/
theorem C4_shrink_retry :
    (placeOrderWithRetry (fun _ => marginReject) 0 1 2 =
      (PlaceResult.marginError, [1, 4/5, 16/25])) ∧
    (∀ (resp : ℕ → OrderApiResp) (k : ℕ) (sz : ℚ) (retries : ℕ),
      actualCode (resp k) ≠ "51008" →
      placeOrderWithRetry resp k sz retries =
        (placeOrderTerminal (resp k), [sz]) ∧
      ((resp k).code ≠ "0" →
        placeOrderTerminal (resp k) =
          PlaceResult.rejected (resp k).code (resp k).msg)) ∧
    (∀ (resp : ℕ → OrderApiResp) (k : ℕ) (sz : ℚ) (retries : ℕ),
      (placeOrderWithRetry resp k sz retries).2.length ≤ retries + 1) ∧
    (∀ (resp : ℕ → OrderApiResp) (k : ℕ) (sz : ℚ) (r : ℕ),
      actualCode (resp k) = "51008" → round2 (sz * (4/5)) < 1/100 →
      placeOrderWithRetry resp k sz (r+1) = (PlaceResult.marginError, [sz])) ∧
    (∀ (resp : ℕ → OrderApiResp) (k : ℕ) (sz : ℚ),
      actualCode (resp k) = "51008" →
      placeOrderWithRetry resp k sz 0 = (PlaceResult.marginError, [sz])) ∧
    (∀ (resp : ℕ → OrderApiResp) (k : ℕ) (sz : ℚ) (r : ℕ),
      actualCode (resp k) = "51008" → 1/100 ≤ round2 (sz * (4/5)) →
      placeOrderWithRetry resp k sz (r+1) =
        ((placeOrderWithRetry resp (k+1) (round2 (sz * (4/5))) r).1,
          sz :: (placeOrderWithRetry resp (k+1) (round2 (sz * (4/5))) r).2)) := by
  have hcode : ∀ r : OrderApiResp, actualCode r = "51008" → r.code ≠ "0" := by
    intro r h
    unfold actualCode at h
    by_cases h1 : r.code = "1"
    · simp [h1]
    · simp only [h1, if_false] at h
      simp [h]
  have hterm : ∀ r : OrderApiResp, actualCode r = "51008" →
      placeOrderTerminal r = PlaceResult.marginError := by
    intro r h
    unfold placeOrderTerminal
    simp [hcode r h, h]
  refine ⟨?_, ?_,
    fun resp k sz retries => placeOrderWithRetry_length resp retries k sz,
    ?_, ?_, ?_⟩
  · have h08 : round2 ((1 : ℚ) * (4/5)) = 4/5 := by
      unfold round2
      rw [show (100 : ℚ) * (1 * (4/5)) = ((80 : ℤ) : ℚ) by norm_num,
        round_intCast]
      norm_num
    have h064 : round2 ((4/5 : ℚ) * (4/5)) = 16/25 := by
      unfold round2
      rw [show (100 : ℚ) * ((4/5) * (4/5)) = ((64 : ℤ) : ℚ) by norm_num,
        round_intCast]
      norm_num
    have hmr : actualCode marginReject = "51008" := rfl
    unfold placeOrderWithRetry
    rw [if_pos hmr]
    simp only [h08]
    rw [if_pos (by norm_num)]
    unfold placeOrderWithRetry
    rw [if_pos hmr]
    simp only [h064]
    rw [if_pos (by norm_num)]
    unfold placeOrderWithRetry
    rw [hterm marginReject hmr]
  · intro resp k sz retries h
    constructor
    · cases retries with
      | zero => simp [placeOrderWithRetry]
      | succ r => simp [placeOrderWithRetry, h]
    · intro hc
      unfold placeOrderTerminal
      simp [hc, h]
  · intro resp k sz r h hlt
    unfold placeOrderWithRetry
    rw [if_pos h, if_neg (not_le.mpr hlt), hterm (resp k) h]
  · intro resp k sz h
    unfold placeOrderWithRetry
    rw [hterm (resp k) h]
  · intro resp k sz r h hge
    conv_lhs => rw [placeOrderWithRetry]
    rw [if_pos h, if_pos hge]

/-- Concrete instantiation of the C4 theorem: a non-margin rejection
(code 51006) propagates immediately, with a single submission. -/
theorem C4_witness :
    placeOrderWithRetry
        (fun _ => { code := "51006", msg := "Order price error", sCode := none })
        0 1 2 =
      (placeOrderTerminal
        { code := "51006", msg := "Order price error", sCode := none }, [1]) ∧
    placeOrderTerminal
        { code := "51006", msg := "Order price error", sCode := none } =
      PlaceResult.rejected "51006" "Order price error" := by
  have h := (C4_shrink_retry.2.1
    (fun _ => { code := "51006", msg := "Order price error", sCode := none })
    0 1 2 (by decide))
  exact ⟨h.1, h.2 (by decide)⟩

/-!
## Close resolver

Source: src/services/aiService.ts lines 738-770 (executeOrder, CLOSE
branch): close the long side; on any non-zero code, close the short
side; if both fail, throw a combined error whose per-side messages map
"position does not exist" class failures (code 51000 or a message
containing 不存在) to 多单不存在 / 空单不存在.
-/

/-- The includes test of the message against 不存在. -/
def msgNotExist (msg : String) : Bool :=
  decide ("不存在".toList <:+: msg.toList)

/-- The "position does not exist" class, as the source itself
classifies a close-position failure (lines 766-767). -/
def NotExistClass (r : ApiResp) : Prop :=
  r.code = "51000" ∨ msgNotExist r.msg = true

/-- Per-side failure message of the combined close error. -/
def closeFailMsg (r : ApiResp) (sideLabel : String) : String :=
  if r.code = "51000" ∨ msgNotExist r.msg then sideLabel else r.msg

/-- Exchange commands issued by the CLOSE branch, in order. -/
inductive CloseEvent
  | closeLong
  | closeShort
  deriving DecidableEq, Repr

/-- Result of the CLOSE branch: the response of the winning side, or the
combined failure. -/
inductive CloseResult
  | closed (side : PosSide) (resp : ApiResp)
  | failedBoth (longMsg shortMsg : String)
  deriving DecidableEq, Repr

/-- executeOrder CLOSE branch (lines 738-770); respLong and respShort
are the exchange responses to the two close-position calls (the second
is only consulted when the second call is issued). -/
def executeClose (respLong respShort : ApiResp) :
    CloseResult × List CloseEvent :=
  if respLong.code = "0" then
    (CloseResult.closed PosSide.long respLong, [CloseEvent.closeLong])
  else if respShort.code = "0" then
    (CloseResult.closed PosSide.short respShort,
      [CloseEvent.closeLong, CloseEvent.closeShort])
  else
    (CloseResult.failedBoth (closeFailMsg respLong "多单不存在")
      (closeFailMsg respShort "空单不存在"),
      [CloseEvent.closeLong, CloseEvent.closeShort])

/-- Claim C5 as stated is false: a long close that fails with a
rate-limit style error (code 50011, no 不存在 in the message) is NOT of
the "position does not exist" class, yet the short side is attempted
anyway — the code falls through to the short attempt on ANY non-zero
long code, not only on the not-exist class. -/
theorem C5_counterexample :
    CloseEvent.closeShort ∈
      (executeClose { code := "50011", msg := "Rate limit" }
        { code := "0", msg := "ok" }).2 ∧
    ¬ NotExistClass { code := "50011", msg := "Rate limit" } := by
  constructor
  · decide
  · intro h
    rcases h with h | h
    · simp at h
    · revert h
      decide

/-- Claim C5, amended: the long side is always attempted first; the
short side is attempted if and only if the long attempt fails (any
non-zero code, not only the not-exist class); the call reports success
via the first side that succeeds and the other side is never touched
afterwards; when both fail, the single combined error carries both
per-side reasons, with not-exist class failures rendered as such.  The
two attempts are issued sequentially in the trace. -/
theorem C5_close_resolver (respLong respShort : ApiResp) :
    ((executeClose respLong respShort).2.head? = some CloseEvent.closeLong) ∧
    (CloseEvent.closeShort ∈ (executeClose respLong respShort).2 ↔
      respLong.code ≠ "0") ∧
    (respLong.code = "0" →
      executeClose respLong respShort =
        (CloseResult.closed PosSide.long respLong, [CloseEvent.closeLong])) ∧
    (respLong.code ≠ "0" → respShort.code = "0" →
      executeClose respLong respShort =
        (CloseResult.closed PosSide.short respShort,
          [CloseEvent.closeLong, CloseEvent.closeShort])) ∧
    (respLong.code ≠ "0" → respShort.code ≠ "0" →
      executeClose respLong respShort =
        (CloseResult.failedBoth (closeFailMsg respLong "多单不存在")
          (closeFailMsg respShort "空单不存在"),
          [CloseEvent.closeLong, CloseEvent.closeShort])) := by
  by_cases h1 : respLong.code = "0"
  · refine ⟨?_, ?_, ?_, ?_, ?_⟩ <;> simp [executeClose, h1]
  · by_cases h2 : respShort.code = "0" <;>
      refine ⟨?_, ?_, ?_, ?_, ?_⟩ <;> simp [executeClose, h1, h2]

/-- Concrete instantiation of the amended C5 theorem, matching the
test property listed in the spec: long close fails with the not-exist code 51000,
short close succeeds — the result reports success via the short branch
and both attempts appear in order in the trace. -/
theorem C5_witness :
    executeClose { code := "51000", msg := "Position does not exist" }
        { code := "0", msg := "ok" } =
      (CloseResult.closed PosSide.short { code := "0", msg := "ok" },
        [CloseEvent.closeLong, CloseEvent.closeShort]) :=
  (C5_close_resolver { code := "51000", msg := "Position does not exist" }
    { code := "0", msg := "ok" }).2.2.2.1 (by decide) rfl

/-!
## Side resolution and the BUY/SELL execution path

Source: src/services/aiService.ts lines 772-818 (side / reduce-only
resolution from the freshly queried position), 820-838 (set leverage,
then size validation) and 840-923 (TP/SL attachment and submission).
-/

/-- Actions that reach the BUY/SELL branch of executeOrder. -/
inductive TradeAction
  | BUY
  | SELL
  deriving DecidableEq, Repr

/-- Resolved order parameters. -/
structure SideResolution where
  apiPosSide : PosSide
  apiSide : Side
  reduceOnly : Bool
  deriving DecidableEq, Repr

/-- No-position branch (lines 808-818): the action determines the
opening side; reduceOnly = false. -/
def openResolution : TradeAction → SideResolution
  | TradeAction.BUY =>
    { apiPosSide := PosSide.long, apiSide := Side.buy, reduceOnly := false }
  | TradeAction.SELL =>
    { apiPosSide := PosSide.short, apiSide := Side.sell, reduceOnly := false }

/-- Side resolution (lines 776-818). -/
def resolveSide (currentPos : Option PositionData) (action : TradeAction) :
    SideResolution :=
  match currentPos with
  | some p =>
    if 0 < p.pos then
      match p.posSide, action with
      | PosSide.long, TradeAction.BUY =>
        { apiPosSide := PosSide.long, apiSide := Side.buy,
          reduceOnly := false }
      | PosSide.long, TradeAction.SELL =>
        { apiPosSide := PosSide.long, apiSide := Side.sell,
          reduceOnly := true }
      | PosSide.short, TradeAction.SELL =>
        { apiPosSide := PosSide.short, apiSide := Side.sell,
          reduceOnly := false }
      | PosSide.short, TradeAction.BUY =>
        { apiPosSide := PosSide.short, apiSide := Side.buy,
          reduceOnly := true }
    else openResolution action
  | none => openResolution action

/-- cleanPrice (line 843): keep a price only when it parses to a
positive number. -/
def cleanPrice (p : Option ℚ) : Option ℚ :=
  match p with
  | some q => if 0 < q then some q else none
  | none => none

/-- Exchange commands issued by the BUY/SELL branch, in order. -/
inductive ExecEvent
  | setLeverage (lever : ℚ) (posSide : PosSide)
  | placeOrder (side : Side) (posSide : PosSide) (reduceOnly : Bool)
      (sz : ℚ) (attachAlgo : Bool)
  deriving DecidableEq, Repr

/-- Result of the BUY/SELL branch. -/
inductive ExecResult
  | ok
  | err (msg : String)
  deriving DecidableEq, Repr

def isSetLev : ExecEvent → Bool
  | ExecEvent.setLeverage _ _ => true
  | _ => false

def isPlaceEvent : ExecEvent → Bool
  | ExecEvent.placeOrder _ _ _ _ _ => true
  | _ => false

/-- The BUY/SELL branch of executeOrder (lines 772-923), with
isSimulation = false.  setLev is the set-leverage response, orderResp
the per-attempt order responses.  The leverage call happens once,
before size validation and before any submission; its failure throws
and aborts the cycle.  TP/SL triggers are attached to each submission
only when at least one valid price exists AND the order is not
reduce-only (lines 860-872). -/
def executeOrderBuySell (action : TradeAction) (orderSize : ℚ)
    (orderLeverage : Option ℚ) (defaultLeverage : ℚ)
    (tpPrice slPrice : Option ℚ) (currentPos : Option PositionData)
    (setLev : ApiResp) (orderResp : ℕ → OrderApiResp) :
    ExecResult × List ExecEvent :=
  let rs := resolveSide currentPos action
  let lever := orderLeverage.getD defaultLeverage
  if setLev.code ≠ "0" then
    (ExecResult.err "无法设置杠杆",
      [ExecEvent.setLeverage lever rs.apiPosSide])
  else if orderSize < 1/100 then
    (ExecResult.err "无效数量",
      [ExecEvent.setLeverage lever rs.apiPosSide])
  else
    let attach := (Option.isSome (cleanPrice tpPrice) ||
      Option.isSome (cleanPrice slPrice)) && !rs.reduceOnly
    let placed := placeOrderWithRetry orderResp 0 (round2 orderSize) 2
    (match placed.1 with
      | PlaceResult.ok => ExecResult.ok
      | PlaceResult.marginError =>
          ExecResult.err "余额不足 (51008)"
      | PlaceResult.rejected c m => ExecResult.err (c ++ ": " ++ m),
      ExecEvent.setLeverage lever rs.apiPosSide ::
        placed.2.map (fun s => ExecEvent.placeOrder rs.apiSide rs.apiPosSide
          rs.reduceOnly s attach))

/-- Opening direction of a BUY/SELL action, as the claim words it. -/
def actionDirection : TradeAction → PosSide
  | TradeAction.BUY => PosSide.long
  | TradeAction.SELL => PosSide.short

/-- Order side named by a BUY/SELL action. -/
def actionSide : TradeAction → Side
  | TradeAction.BUY => Side.buy
  | TradeAction.SELL => Side.sell

/-- Claim C6: side resolution is a function of the freshly queried
position and the action.  With a position: same-direction action is an
add (reduceOnly = false) on the existing posSide, opposite-direction
action is a reduction (reduceOnly = true).  Without a position (or with
pos ≤ 0) the action determines the opening side, reduceOnly = false.
And every order submission in the execution trace attaches TP/SL
triggers only when it is not reduce-only, and the reduce-only flag of
each submission is the resolved one. -/
theorem C6_side_resolution :
    (∀ (p : PositionData) (action : TradeAction), 0 < p.pos →
      (actionDirection action = p.posSide →
        resolveSide (some p) action =
          { apiPosSide := p.posSide, apiSide := actionSide action,
            reduceOnly := false }) ∧
      (actionDirection action ≠ p.posSide →
        resolveSide (some p) action =
          { apiPosSide := p.posSide, apiSide := actionSide action,
            reduceOnly := true })) ∧
    (∀ (q : Option PositionData) (action : TradeAction),
      hasPositionData q = false →
      resolveSide q action =
        { apiPosSide := actionDirection action,
          apiSide := actionSide action, reduceOnly := false }) ∧
    (∀ (action : TradeAction) (orderSize : ℚ) (orderLeverage : Option ℚ)
        (defaultLeverage : ℚ) (tpPrice slPrice : Option ℚ)
        (q : Option PositionData) (setLev : ApiResp)
        (orderResp : ℕ → OrderApiResp) (side : Side) (pside : PosSide)
        (ro : Bool) (sz : ℚ) (att : Bool),
      ExecEvent.placeOrder side pside ro sz att ∈
        (executeOrderBuySell action orderSize orderLeverage defaultLeverage
          tpPrice slPrice q setLev orderResp).2 →
      (att = true → ro = false) ∧ ro = (resolveSide q action).reduceOnly) := by
  refine ⟨?_, ?_, ?_⟩
  · intro p action hpos
    obtain ⟨ps, pos, avg, upl, mar, slt, bep⟩ := p
    dsimp only at hpos ⊢
    cases ps <;> cases action <;>
      refine ⟨fun h => ?_, fun h => ?_⟩ <;>
      simp_all [resolveSide, openResolution, actionSide, actionDirection]
  · intro q action h
    cases q with
    | none => cases action <;> simp [resolveSide, openResolution,
        actionDirection, actionSide]
    | some p =>
      have hnp : ¬ 0 < p.pos := by
        simpa [hasPositionData] using h
      cases action <;> simp [resolveSide, openResolution, hnp,
        actionDirection, actionSide]
  · intro action orderSize orderLeverage defaultLeverage tpPrice slPrice q
      setLev orderResp side pside ro sz att hmem
    simp only [executeOrderBuySell] at hmem
    split_ifs at hmem with h1 h2
    · simp at hmem
    · simp at hmem
    · simp only [List.mem_cons, List.mem_map] at hmem
      rcases hmem with h | ⟨s, _, hs⟩
      · exact absurd h (by simp)
      · injection hs with e1 e2 e3 e4 e5
        subst e3
        subst e5
        refine ⟨?_, rfl⟩
        intro hatt
        cases hro : (resolveSide q action).reduceOnly
        · rfl
        · rw [hro] at hatt
          simp at hatt

/-- Concrete instantiation of the C6 theorem: SELL against a held long
position resolves to a sell on the long side with reduceOnly = true. -/
theorem C6_witness :
    resolveSide
        (some { posSide := PosSide.long, pos := 1, avgPx := 3000, upl := 0,
                margin := 10, slTriggerPx := none, breakEvenPx := none })
        TradeAction.SELL =
      { apiPosSide := PosSide.long, apiSide := Side.sell,
        reduceOnly := true } :=
  ((C6_side_resolution.1
    { posSide := PosSide.long, pos := 1, avgPx := 3000, upl := 0,
      margin := 10, slTriggerPx := none, breakEvenPx := none }
    TradeAction.SELL (by norm_num)).2 (by decide))

/-- Claim C8: the set-leverage call is the first exchange command of
every BUY/SELL execution and appears exactly once (never retried); if
it fails, the result is the fatal leverage error and no order is ever
placed; conversely an order submission in the trace implies the
leverage call succeeded. -/
theorem C8_leverage_first (action : TradeAction) (orderSize : ℚ)
    (orderLeverage : Option ℚ) (defaultLeverage : ℚ)
    (tpPrice slPrice : Option ℚ) (currentPos : Option PositionData)
    (setLev : ApiResp) (orderResp : ℕ → OrderApiResp) :
    ((executeOrderBuySell action orderSize orderLeverage defaultLeverage
        tpPrice slPrice currentPos setLev orderResp).2.head? =
      some (ExecEvent.setLeverage (orderLeverage.getD defaultLeverage)
        (resolveSide currentPos action).apiPosSide)) ∧
    (∀ e ∈ (executeOrderBuySell action orderSize orderLeverage
        defaultLeverage tpPrice slPrice currentPos setLev orderResp).2.tail,
      isSetLev e = false) ∧
    (setLev.code ≠ "0" →
      (executeOrderBuySell action orderSize orderLeverage defaultLeverage
        tpPrice slPrice currentPos setLev orderResp).1 =
          ExecResult.err "无法设置杠杆" ∧
      ∀ e ∈ (executeOrderBuySell action orderSize orderLeverage
          defaultLeverage tpPrice slPrice currentPos setLev orderResp).2,
        isPlaceEvent e = false) ∧
    ((∃ e ∈ (executeOrderBuySell action orderSize orderLeverage
        defaultLeverage tpPrice slPrice currentPos setLev orderResp).2,
        isPlaceEvent e = true) → setLev.code = "0") := by
  by_cases h1 : setLev.code = "0"
  · by_cases h2 : orderSize < (100 : ℚ)⁻¹
    · refine ⟨?_, ?_, ?_, ?_⟩ <;>
        simp [executeOrderBuySell, h1, h2, isSetLev, isPlaceEvent, one_div]
    · refine ⟨?_, ?_, ?_, ?_⟩ <;>
        simp [executeOrderBuySell, h1, h2, isSetLev, isPlaceEvent, one_div]
  · refine ⟨?_, ?_, ?_, ?_⟩ <;>
      simp [executeOrderBuySell, h1, isSetLev, isPlaceEvent]

/-- Concrete instantiation of the C8 theorem: a failed set-leverage
call (code 51000) aborts the cycle with the leverage error and no
order submission appears in the trace. -/
theorem C8_witness :
    (executeOrderBuySell TradeAction.BUY 1 (some 20) 20 none none none
        { code := "51000", msg := "Leverage setting failed" }
        (fun _ => { code := "0", msg := "ok", sCode := none })).1 =
      ExecResult.err "无法设置杠杆" ∧
    ∀ e ∈ (executeOrderBuySell TradeAction.BUY 1 (some 20) 20 none none none
        { code := "51000", msg := "Leverage setting failed" }
        (fun _ => { code := "0", msg := "ok", sCode := none })).2,
      isPlaceEvent e = false :=
  (C8_leverage_first TradeAction.BUY 1 (some 20) 20 none none none
    { code := "51000", msg := "Leverage setting failed" }
    (fun _ => { code := "0", msg := "ok", sCode := none })).2.2.1 (by decide)

/-!
## Protective order reconciler

Source: src/services/aiService.ts lines 931-1003 (updatePositionTPSL),
with isSimulation = false.  The pending conditional (algo) orders for
the instrument are pre-fetched to know what to cancel; the new
conditional order(s) are placed FIRST, each placement failure throwing
immediately; the cancel of the old orders is issued only after all
requested placements succeeded (and its response is not checked).
-/

/-- A pending algo order as the reconciler reads it. -/
structure AlgoOrder where
  algoId : String
  instId : String
  posSide : PosSide
  deriving DecidableEq, Repr

/-- Exchange commands issued by updatePositionTPSL, in order. -/
inductive TpslEvent
  | placeSL (trigger : ℚ)
  | placeTP (trigger : ℚ)
  | cancelAlgos (ids : List String)
  deriving DecidableEq, Repr

def isCancelEvent : TpslEvent → Bool
  | TpslEvent.cancelAlgos _ => true
  | _ => false

/-- Result of updatePositionTPSL: the returned message or the thrown
error. -/
inductive TpslResult
  | ok (msg : String)
  | err (msg : String)
  deriving DecidableEq, Repr

/-- toCancel (lines 941-943): ids of the pending algo orders of this
instrument and position side. -/
def toCancelIds (pendingAlgos : List AlgoOrder) (instId : String)
    (posSide : PosSide) : List String :=
  (pendingAlgos.filter
    (fun o => decide (o.instId = instId ∧ o.posSide = posSide))).map
    (fun o => o.algoId)

/-- Tail of updatePositionTPSL (lines 988-997): cancel the old orders
when any exist, then report success. -/
def tpslFinish (toCancel : List String) (acc : List TpslEvent) :
    TpslResult × List TpslEvent :=
  if toCancel = [] then (TpslResult.ok "止盈止损更新成功", acc)
  else (TpslResult.ok "止盈止损更新成功",
    acc ++ [TpslEvent.cancelAlgos toCancel])

/-- updatePositionTPSL (lines 931-1003).  slResp and tpResp are the
exchange responses to the two conditional-order placements (each
consulted only when that placement is issued). -/
def updatePositionTPSL (instId : String) (posSide : PosSide)
    (slPrice tpPrice : Option ℚ) (pendingAlgos : List AlgoOrder)
    (slResp tpResp : ApiResp) : TpslResult × List TpslEvent :=
  let toCancel := toCancelIds pendingAlgos instId posSide
  if slPrice.isSome || tpPrice.isSome then
    match slPrice with
    | some sl =>
      if slResp.code ≠ "0" then
        (TpslResult.err "设置新止损失败", [TpslEvent.placeSL sl])
      else
        match tpPrice with
        | some tp =>
          if tpResp.code ≠ "0" then
            (TpslResult.err "设置新止盈失败",
              [TpslEvent.placeSL sl, TpslEvent.placeTP tp])
          else tpslFinish toCancel [TpslEvent.placeSL sl, TpslEvent.placeTP tp]
        | none => tpslFinish toCancel [TpslEvent.placeSL sl]
    | none =>
      match tpPrice with
      | some tp =>
        if tpResp.code ≠ "0" then
          (TpslResult.err "设置新止盈失败", [TpslEvent.placeTP tp])
        else tpslFinish toCancel [TpslEvent.placeTP tp]
      | none => tpslFinish toCancel []
  else
    if toCancel = [] then (TpslResult.ok "无新的止盈止损价格", [])
    else tpslFinish toCancel []

/-- Claim C3: in every invocation of the reconciler, (1) a failed
stop-loss placement throws immediately: the result is the error, the
trace holds only that placement, and in particular no cancel was
issued; (2) likewise for a failed take-profit placement, issued after a
successful stop-loss placement when one was requested; (3) a cancel
appearing in the trace implies every requested placement succeeded, the
cancelled ids are exactly the pre-fetched pending ones, and the cancel
is the last command, preceded only by placements; (4) an error result
never coexists with a cancel in the trace (the old protection is left
untouched). -/
theorem C3_place_before_cancel (instId : String) (posSide : PosSide)
    (slPrice tpPrice : Option ℚ) (pendingAlgos : List AlgoOrder)
    (slResp tpResp : ApiResp) :
    (∀ sl, slPrice = some sl → slResp.code ≠ "0" →
      updatePositionTPSL instId posSide slPrice tpPrice pendingAlgos
        slResp tpResp =
        (TpslResult.err "设置新止损失败", [TpslEvent.placeSL sl])) ∧
    (∀ tp, tpPrice = some tp → (∀ sl ∈ slPrice, slResp.code = "0") →
      tpResp.code ≠ "0" →
      updatePositionTPSL instId posSide slPrice tpPrice pendingAlgos
        slResp tpResp =
        (TpslResult.err "设置新止盈失败",
          (slPrice.elim [] fun sl => [TpslEvent.placeSL sl]) ++
            [TpslEvent.placeTP tp])) ∧
    (∀ ids, TpslEvent.cancelAlgos ids ∈
        (updatePositionTPSL instId posSide slPrice tpPrice pendingAlgos
          slResp tpResp).2 →
      ids = toCancelIds pendingAlgos instId posSide ∧
      (∀ sl ∈ slPrice, slResp.code = "0") ∧
      (∀ tp ∈ tpPrice, tpResp.code = "0") ∧
      (updatePositionTPSL instId posSide slPrice tpPrice pendingAlgos
        slResp tpResp).2.getLast? = some (TpslEvent.cancelAlgos ids) ∧
      ∀ e ∈ (updatePositionTPSL instId posSide slPrice tpPrice pendingAlgos
        slResp tpResp).2.dropLast, isCancelEvent e = false) ∧
    (∀ msg ids,
      (updatePositionTPSL instId posSide slPrice tpPrice pendingAlgos
        slResp tpResp).1 = TpslResult.err msg →
      TpslEvent.cancelAlgos ids ∉
        (updatePositionTPSL instId posSide slPrice tpPrice pendingAlgos
          slResp tpResp).2) := by
  rcases hsl : slPrice with _ | sl <;> rcases htp : tpPrice with _ | tp <;>
    by_cases hc1 : slResp.code = "0" <;> by_cases hc2 : tpResp.code = "0" <;>
    by_cases hnil : toCancelIds pendingAlgos instId posSide = [] <;>
    refine ⟨?_, ?_, ?_, ?_⟩ <;>
    simp_all [updatePositionTPSL, tpslFinish, isCancelEvent,
      List.getLast?]

/-- Concrete instantiation of the C3 theorem: a failed stop-loss
placement (code 51279) with one old pending order leaves the result as
the throw and issues no cancel. -/
theorem C3_witness :
    updatePositionTPSL "ETH-USDT-SWAP" PosSide.long (some 3000) none
        [{ algoId := "a1", instId := "ETH-USDT-SWAP",
           posSide := PosSide.long }]
        { code := "51279", msg := "trigger price error" }
        { code := "0", msg := "ok" } =
      (TpslResult.err "设置新止损失败", [TpslEvent.placeSL 3000]) :=
  (C3_place_before_cancel "ETH-USDT-SWAP" PosSide.long (some 3000) none
    [{ algoId := "a1", instId := "ETH-USDT-SWAP", posSide := PosSide.long }]
    { code := "51279", msg := "trigger price error" }
    { code := "0", msg := "ok" }).1 3000 rfl (by decide)

/-- Claim C9: called with neither a stop-loss nor a take-profit price,
the reconciler cancels every pending conditional order of that
instrument and side — all of them and nothing else — without placing
any replacement, and reports success; when no pending order exists it
returns early having issued no command at all.  Every pending algo
order of the instrument+side is in the cancelled set. -/
theorem C9_cancel_without_replacement (instId : String) (posSide : PosSide)
    (pendingAlgos : List AlgoOrder) (slResp tpResp : ApiResp) :
    (toCancelIds pendingAlgos instId posSide ≠ [] →
      updatePositionTPSL instId posSide none none pendingAlgos slResp tpResp =
        (TpslResult.ok "止盈止损更新成功",
          [TpslEvent.cancelAlgos (toCancelIds pendingAlgos instId posSide)])) ∧
    (toCancelIds pendingAlgos instId posSide = [] →
      updatePositionTPSL instId posSide none none pendingAlgos slResp tpResp =
        (TpslResult.ok "无新的止盈止损价格", [])) ∧
    (∀ a ∈ pendingAlgos, a.instId = instId → a.posSide = posSide →
      a.algoId ∈ toCancelIds pendingAlgos instId posSide) := by
  refine ⟨?_, ?_, ?_⟩
  · intro h
    simp [updatePositionTPSL, tpslFinish, h]
  · intro h
    simp [updatePositionTPSL, h]
  · intro a ha h1 h2
    unfold toCancelIds
    rw [List.mem_map]
    exact ⟨a, List.mem_filter.mpr ⟨ha, by simp [h1, h2]⟩, rfl⟩

/-- Concrete instantiation of the C9 theorem: with one pending
stop-loss order and no new prices, the single issued command is the
cancel of exactly that order, and the call reports success. -/
theorem C9_witness :
    updatePositionTPSL "ETH-USDT-SWAP" PosSide.long none none
        [{ algoId := "a1", instId := "ETH-USDT-SWAP",
           posSide := PosSide.long }]
        { code := "0", msg := "ok" } { code := "0", msg := "ok" } =
      (TpslResult.ok "止盈止损更新成功",
        [TpslEvent.cancelAlgos ["a1"]]) := by
  have h := (C9_cancel_without_replacement "ETH-USDT-SWAP" PosSide.long
    [{ algoId := "a1", instId := "ETH-USDT-SWAP", posSide := PosSide.long }]
    { code := "0", msg := "ok" } { code := "0", msg := "ok" }).1 (by decide)
  simpa using h

end Okx
